import Mathlib

/-!
Shallow embedding of the reapi hook-chain natives
(src/reapi/src/natives/natives_hookchains.cpp) and proofs of the
specification claims about them.

Modelling conventions:
- AMX cells are 32-bit machine words, embedded as `Int`; `size_t` arithmetic
  is taken modulo `2 ^ 64` where the source converts.
- The AMX side of a native call (its packed parameter vector, the result of
  dereferencing a parameter address, the string stored at a parameter
  address) is an explicit input record `AmxArgs`.
- External resolvers the source calls (hook catalog, `amx_FindPublic`,
  `getPrivate`, `edictByIndexAmx`, `PEV`, `indexOfEdict`) live in a `Host`
  record of functions; theorems quantify over the host.
- Mutable globals (`g_hookCtx`, the hook manager registry, the heap of
  STRING return buffers, the error log written by `MF_LogError`) are an
  explicit `GlobalState` threaded through each native.
- Heap allocations made for STRING return values are tracked by identity
  so that leak claims are expressible: `heap` is the list of live
  allocation ids.
-/

/-- The closed enumeration of marshaled value kinds (`enum AType`). -/
inductive AType
  | ATYPE_INTEGER
  | ATYPE_FLOAT
  | ATYPE_STRING
  | ATYPE_CLASSPTR
  | ATYPE_EDICT
  | ATYPE_EVARS
  deriving DecidableEq, Repr

open AType

/-- The numeric cell value of a type tag, as compared against a raw
parameter cell by the source (`params[arg_type] != retVal.type`). -/
def AType.toCell : AType → Int
  | ATYPE_INTEGER => 0
  | ATYPE_FLOAT => 1
  | ATYPE_STRING => 2
  | ATYPE_CLASSPTR => 3
  | ATYPE_EDICT => 4
  | ATYPE_EVARS => 5

/-- Handler state constants used by `SetState` (`FSTATE_ENABLED`,
`FSTATE_STOPPED`). -/
inductive FState
  | FSTATE_ENABLED
  | FSTATE_STOPPED
  deriving DecidableEq, Repr

open FState

/-- A machine word written into the live argument block by
`SetHookChainArg`; the source writes raw cells or native pointers through
`destAddr`, one variant per `AType` branch of its switch. -/
inductive NativeWord
  | intw (v : Int)
  | strw (p : Nat)
  | classw (p : Nat)
  | edictw (p : Nat)
  | pevw (p : Nat)
  deriving DecidableEq, Repr

/-- The return-value cell of the active hook context (`retVal`).  The
source stores it as a union keyed by `type`; since the tag is fixed for
the lifetime of a context and each switch reads only the member matching
the tag, the union is embedded as a record.  A STRING buffer is an
allocation id paired with the owned contents; `none` is the null
pointer. -/
structure RetVal where
  type : AType
  set : Bool
  _integer : Int
  _string : Option (Nat × List Char)
  _classptr : Nat
  _edict : Nat
  _pev : Nat
  deriving DecidableEq, Repr

/-- The live invocation context (`*g_hookCtx`): the return cell, the
argument count and per-argument tags copied from the hook descriptor, the
live argument block (`args_ptr`), and the per-invocation temporary string
arena (`CTempStrings`). -/
structure HookCtx where
  retVal : RetVal
  args_count : Nat
  args_type : List AType
  args : List NativeWord
  tempStrings : List (List Char)
  deriving DecidableEq, Repr

/-- One handler registration held by the hook manager.
Modelled from the spec: the hook manager itself is not under src/; the
spec describes a registration as (target script function, phase, enabled
state) appended in order, mutated only via enable/disable. -/
structure AmxxHook where
  func : Int
  fwid : Nat
  post : Bool
  state : FState
  deriving DecidableEq, Repr

/-- The mutable global state the natives touch: `g_hookCtx`, the hook
manager registration list, the heap of live STRING allocations (ids, for
leak accounting), the allocation counter, and the `MF_LogError` log. -/
structure GlobalState where
  hookCtx : Option HookCtx
  registrations : List AmxxHook
  heap : List Nat
  nextAlloc : Nat
  log : List String
  deriving DecidableEq, Repr

/-- `MF_LogError`: appends a diagnostic to the host log. -/
def logError (st : GlobalState) (msg : String) : GlobalState :=
  { st with log := msg :: st.log }

/-- The AMX side of a native call: `params[1..]` (so `PARAMS_COUNT` is
the length), the value obtained by dereferencing a parameter cell through
`getAmxAddr`, and the string stored at a parameter cell. -/
structure AmxArgs where
  params : List Int
  deref : Int → Int
  strAt : Int → List Char

/-- `params[i]` for `i ≥ 1` (the source indexes `params` from 1). -/
def AmxArgs.param (a : AmxArgs) (i : Nat) : Int :=
  a.params.getD (i - 1) 0

/-- `PARAMS_COUNT` (`params[0]`). -/
def AmxArgs.paramsCount (a : AmxArgs) : Nat :=
  a.params.length

/-- A hook descriptor as seen through `g_hookManager.getHook`: name,
dependency name, and the result of `checkRequirements`. -/
structure HookDesc where
  func_name : List Char
  depend_name : List Char
  available : Bool

/-- The external collaborators the natives call. -/
structure Host where
  getHook : Int → Option HookDesc
  findPublic : List Char → Option Nat
  getPrivate : Int → Nat
  edictByIndexAmx : Int → Nat
  pevOfIndex : Int → Nat
  pevOfClass : Nat → Nat
  indexOfEdict : Nat → Int
  indexOfPev : Nat → Int

/-- `TRUE` as a cell. -/
def TRUE : Int := 1

/-- `FALSE` as a cell. -/
def FALSE : Int := 0

/-- Modelled from the spec: the reserved invalid handle sentinel returned
by registration on every failure path (`INVALID_HOOKCHAIN`, not under
src/). -/
def INVALID_HOOKCHAIN : Int := 0

/-- Modelled from the spec: capacity of one scratch buffer of the
per-invocation string arena (`CTempStrings::STRING_LEN`, not under
src/). -/
def STRING_LEN : Nat := 4096

/-- Result of one native call: the new global state, the returned cell,
and any strings written back into AMX memory (address, contents). -/
structure NativeResult where
  st : GlobalState
  ret : Int
  writes : List (Int × List Char)

/-- The uniform shape of a registered native. -/
def Native : Type :=
  Host → GlobalState → AmxArgs → NativeResult

/-- Modelled from the spec: `hook->registerForward` registers the resolved
callback as a forward; the registration machinery is not under src/ and
the spec folds its failure mode into callback resolution, so it succeeds
exactly when the callback name resolves in the caller module. -/
def registerForward (host : Host) (name : List Char) : Option Nat :=
  host.findPublic name

/-- Modelled from the spec: `g_hookManager.addHandler` appends the
registration to the descriptor list and returns a stable numeric handle
(the 1-based index, so that the sentinel 0 is never a valid handle). -/
def addHandler (st : GlobalState) (func : Int) (fwid : Nat) (post : Bool) :
    GlobalState × Int :=
  ({ st with registrations :=
      st.registrations ++ [⟨func, fwid, post, FSTATE_ENABLED⟩] },
    (st.registrations.length : Int) + 1)

/-- Modelled from the spec: `g_hookManager.getAmxxHook` resolves a numeric
handle back to its registration, rejecting anything out of range. -/
def getAmxxHook (st : GlobalState) (h : Int) : Option AmxxHook :=
  if h ≤ 0 then none else st.registrations.get? (h.toNat - 1)

/-- `RegisterHookChain` (natives_hookchains.cpp lines 14-50). -/
def RegisterHookChain : Native := fun host st a =>
  let func := a.param 1
  let post := a.param 3
  match host.getHook func with
  | none =>
      { st := logError st "RegisterHookChain: function with this id does not exist in current API version",
        ret := INVALID_HOOKCHAIN, writes := [] }
  | some hook =>
      if ¬hook.available then
        { st := logError st "RegisterHookChain: function is not available, dependency required",
          ret := INVALID_HOOKCHAIN, writes := [] }
      else
        let funcname := a.strAt (a.param 2)
        match host.findPublic funcname with
        | none =>
            { st := logError st "RegisterHookChain: public function not found",
              ret := INVALID_HOOKCHAIN, writes := [] }
        | some _ =>
            match registerForward host funcname with
            | none =>
                { st := logError st "RegisterHookChain: register forward failed",
                  ret := INVALID_HOOKCHAIN, writes := [] }
            | some fwid =>
                let r := addHandler st func fwid (post ≠ 0)
                { st := r.1, ret := r.2, writes := [] }

/-- `EnableHookChain` (natives_hookchains.cpp lines 61-75). -/
def EnableHookChain : Native := fun _ st a =>
  match getAmxxHook st (a.param 1) with
  | none =>
      { st := logError st "EnableHookChain: invalid HookChain handle",
        ret := FALSE, writes := [] }
  | some hk =>
      let regs := st.registrations.set ((a.param 1).toNat - 1)
        ({ hk with state := FSTATE_ENABLED })
      { st := { st with registrations := regs }, ret := TRUE, writes := [] }

/-- `DisableHookChain` (natives_hookchains.cpp lines 85-99). -/
def DisableHookChain : Native := fun _ st a =>
  match getAmxxHook st (a.param 1) with
  | none =>
      { st := logError st "DisableHookChain: invalid HookChain handle",
        ret := FALSE, writes := [] }
  | some hk =>
      let regs := st.registrations.set ((a.param 1).toNat - 1)
        ({ hk with state := FSTATE_STOPPED })
      { st := { st with registrations := regs }, ret := TRUE, writes := [] }

/-- The body of `SetHookChainReturn` after validation: the switch over the
fixed return tag.  For STRING the previous buffer (if any) is released
and a fresh copy of the source text is allocated. -/
def setRetValSwitch (host : Host) (st : GlobalState) (ctx : HookCtx)
    (src : Int) (srcStr : List Char) : GlobalState :=
  let rv := ctx.retVal
  let upd : RetVal → GlobalState → GlobalState := fun rv' s =>
    { s with hookCtx := some { ctx with retVal := { rv' with set := true } } }
  match rv.type with
  | ATYPE_INTEGER => upd { rv with _integer := src } st
  | ATYPE_FLOAT => upd { rv with _integer := src } st
  | ATYPE_STRING =>
      let heap1 := match rv._string with
        | some pr => st.heap.erase pr.1
        | none => st.heap
      let id := st.nextAlloc
      upd { rv with _string := some (id, srcStr) }
        { st with heap := id :: heap1, nextAlloc := st.nextAlloc + 1 }
  | ATYPE_CLASSPTR => upd { rv with _classptr := host.getPrivate src } st
  | ATYPE_EDICT => upd { rv with _edict := host.edictByIndexAmx src } st
  | ATYPE_EVARS => upd { rv with _pev := host.pevOfIndex src } st

/-- `SetHookChainReturn` (natives_hookchains.cpp lines 110-161). -/
def SetHookChainReturn : Native := fun host st a =>
  match st.hookCtx with
  | none =>
      { st := logError st "SetHookChainReturn: trying to set return value without active hook",
        ret := FALSE, writes := [] }
  | some ctx =>
      if a.param 1 ≠ ctx.retVal.type.toCell then
        { st := logError st "SetHookChainReturn: trying to set return value with incompatible type",
          ret := FALSE, writes := [] }
      else
        { st := setRetValSwitch host st ctx (a.deref (a.param 2)) (a.strAt (a.param 2)),
          ret := TRUE, writes := [] }

/-- `GetHookChainReturn` (natives_hookchains.cpp lines 172-215). -/
def GetHookChainReturn : Native := fun host st a =>
  match st.hookCtx with
  | none =>
      { st := logError st "GetHookChainReturn: trying to get return value without active hook",
        ret := FALSE, writes := [] }
  | some ctx =>
      let rv := ctx.retVal
      if ¬rv.set then
        { st := logError st "GetHookChainReturn: return value is not set",
          ret := FALSE, writes := [] }
      else
        match rv.type with
        | ATYPE_INTEGER => { st := st, ret := rv._integer, writes := [] }
        | ATYPE_FLOAT => { st := st, ret := rv._integer, writes := [] }
        | ATYPE_STRING =>
            if a.paramsCount ≠ 2 then
              { st := st, ret := FALSE, writes := [] }
            else
              { st := st, ret := TRUE,
                writes := [(a.param 1,
                  ((rv._string.map Prod.snd).getD []).take (a.param 2).toNat)] }
        | ATYPE_CLASSPTR =>
            { st := st, ret := host.indexOfPev (host.pevOfClass rv._classptr),
              writes := [] }
        | ATYPE_EDICT =>
            { st := st, ret := host.indexOfEdict rv._edict, writes := [] }
        | ATYPE_EVARS =>
            { st := st, ret := host.indexOfPev rv._pev, writes := [] }

/-- The body of `SetHookChainArg` after validation: writes one word of the
live argument block (`*(...)destAddr = ...`), copying STRING sources into
a fresh scratch buffer of the invocation arena first
(`getAmxStringTemp(..., g_hookCtx->get_temp_string(amx), STRING_LEN)`). -/
def setArgSwitch (host : Host) (st : GlobalState) (ctx : HookCtx)
    (number : Nat) (ty : AType) (src : Int) (srcStr : List Char) :
    GlobalState :=
  match ty with
  | ATYPE_INTEGER =>
      let c := { ctx with args := ctx.args.set number (NativeWord.intw src) }
      { st with hookCtx := some c }
  | ATYPE_FLOAT =>
      let c := { ctx with args := ctx.args.set number (NativeWord.intw src) }
      { st with hookCtx := some c }
  | ATYPE_STRING =>
      let c := { ctx with
        args := ctx.args.set number (NativeWord.strw ctx.tempStrings.length),
        tempStrings := ctx.tempStrings ++ [srcStr.take STRING_LEN] }
      { st with hookCtx := some c }
  | ATYPE_CLASSPTR =>
      let c := { ctx with args := ctx.args.set number (NativeWord.classw (host.getPrivate src)) }
      { st with hookCtx := some c }
  | ATYPE_EDICT =>
      let c := { ctx with args := ctx.args.set number (NativeWord.edictw (host.edictByIndexAmx src)) }
      { st with hookCtx := some c }
  | ATYPE_EVARS =>
      let c := { ctx with args := ctx.args.set number (NativeWord.pevw (host.pevOfIndex src)) }
      { st with hookCtx := some c }

/-- `SetHookChainArg` (natives_hookchains.cpp lines 228-277).  The source
computes `size_t number = params[arg_number] - 1`, a conversion of signed
cell arithmetic to `size_t`, embedded as reduction modulo `2 ^ 64`.  The
body consults no phase information at all. -/
def SetHookChainArg : Native := fun host st a =>
  match st.hookCtx with
  | none =>
      { st := logError st "SetHookChainArg: trying to get return value without active hook",
        ret := FALSE, writes := [] }
  | some ctx =>
      let number : Nat := ((a.param 1 - 1) % (2 ^ 64 : Int)).toNat
      if ctx.args_count ≤ number then
        { st := logError st "SetHookChainArg: argument number out of range of hookchain args",
          ret := FALSE, writes := [] }
      else
        let ty := ctx.args_type.getD number ATYPE_INTEGER
        if a.param 2 ≠ ty.toCell then
          { st := logError st "SetHookChainArg: invalid argument type provided",
            ret := FALSE, writes := [] }
        else
          { st := setArgSwitch host st ctx number ty (a.deref (a.param 3)) (a.strAt (a.param 3)),
            ret := TRUE, writes := [] }

/-- Stub installed by `fillNatives` when neither required host component
is present (natives_hookchains.cpp line 297). -/
def hookChainStub : Native := fun _ st _ =>
  { st := logError st "You need ReHlds or ReGameDll for use hookchains",
    ret := FALSE, writes := [] }

/-- The `HookChain_Natives` table (lines 279-292, without the null
terminator entry). -/
def HookChain_Natives : List (String × Native) :=
  [("RegisterHookChain", RegisterHookChain),
   ("EnableHookChain", EnableHookChain),
   ("DisableHookChain", DisableHookChain),
   ("SetHookChainReturn", SetHookChainReturn),
   ("GetHookChainReturn", GetHookChainReturn),
   ("SetHookChainArg", SetHookChainArg)]

/-- `fillNatives`: replaces every implementation of a native table by one
handler, keeping the names. -/
def fillNatives (t : List (String × Native)) (f : Native) :
    List (String × Native) :=
  t.map (fun p => (p.1, f))

/-- `api_cfg` availability flags consulted at registration time. -/
structure ApiCfg where
  hasReHLDS : Bool
  hasReGameDLL : Bool

/-- `RegisterNatives_HookChains` (lines 294-300): the table handed to
`AddNatives`, with every entry stubbed out when neither ReHLDS nor
ReGameDLL is available. -/
def RegisterNatives_HookChains (cfg : ApiCfg) : List (String × Native) :=
  if ¬cfg.hasReHLDS ∧ ¬cfg.hasReGameDLL then
    fillNatives HookChain_Natives hookChainStub
  else
    HookChain_Natives

/-- The word `setArgSwitch` installs into the argument slot, per tag. -/
def writtenWord (host : Host) (ty : AType) (ctx : HookCtx) (src : Int)
    (_srcStr : List Char) : NativeWord :=
  match ty with
  | ATYPE_INTEGER => NativeWord.intw src
  | ATYPE_FLOAT => NativeWord.intw src
  | ATYPE_STRING => NativeWord.strw ctx.tempStrings.length
  | ATYPE_CLASSPTR => NativeWord.classw (host.getPrivate src)
  | ATYPE_EDICT => NativeWord.edictw (host.edictByIndexAmx src)
  | ATYPE_EVARS => NativeWord.pevw (host.pevOfIndex src)

/-- All of the global state except the error log, for frame conditions. -/
def framedExceptLog (s t : GlobalState) : Prop :=
  s.hookCtx = t.hookCtx ∧ s.registrations = t.registrations ∧
  s.heap = t.heap ∧ s.nextAlloc = t.nextAlloc

theorem setRetValSwitch_set (host : Host) (st : GlobalState) (ctx : HookCtx)
    (src : Int) (s : List Char) :
    ∃ ctx2, (setRetValSwitch host st ctx src s).hookCtx = some ctx2 ∧
      ctx2.retVal.set = true := by
  cases h : ctx.retVal.type <;> simp [setRetValSwitch, h]

theorem setArgSwitch_shape (host : Host) (st : GlobalState) (ctx : HookCtx)
    (number : Nat) (ty : AType) (src : Int) (srcStr : List Char) :
    setArgSwitch host st ctx number ty src srcStr =
      { st with hookCtx := some { ctx with
          args := ctx.args.set number (writtenWord host ty ctx src srcStr),
          tempStrings :=
            if ty = ATYPE_STRING then ctx.tempStrings ++ [srcStr.take STRING_LEN]
            else ctx.tempStrings } } := by
  cases ty <;> simp [setArgSwitch, writtenWord]

/-- C3: `SetHookChainReturn` fails, reports an error, and leaves the
return cell (indeed the whole state apart from the log) unmutated when the
supplied tag differs from the return cell tag or when no invocation is
active; the cell is marked `set = true` only on a success return. -/
theorem SetHookChainReturn_failure_no_mutation (host : Host)
    (st : GlobalState) (a : AmxArgs) :
    (st.hookCtx = none →
      (SetHookChainReturn host st a).ret = FALSE ∧
      (SetHookChainReturn host st a).st.log.length = st.log.length + 1 ∧
      framedExceptLog (SetHookChainReturn host st a).st st) ∧
    (∀ ctx, st.hookCtx = some ctx →
      a.param 1 ≠ ctx.retVal.type.toCell →
      (SetHookChainReturn host st a).ret = FALSE ∧
      (SetHookChainReturn host st a).st.log.length = st.log.length + 1 ∧
      framedExceptLog (SetHookChainReturn host st a).st st) ∧
    ((SetHookChainReturn host st a).ret = TRUE →
      ∃ ctx2, (SetHookChainReturn host st a).st.hookCtx = some ctx2 ∧
        ctx2.retVal.set = true) := by
  refine ⟨?_, ?_, ?_⟩
  · intro h
    simp [SetHookChainReturn, h, logError, framedExceptLog]
  · intro ctx h hne
    simp [SetHookChainReturn, h, hne, logError, framedExceptLog]
  · intro h
    cases hc : st.hookCtx with
    | none => simp [SetHookChainReturn, hc, logError, TRUE, FALSE] at h
    | some ctx =>
        by_cases htag : a.param 1 = ctx.retVal.type.toCell
        · obtain ⟨ctx2, hc2, hset⟩ :=
            setRetValSwitch_set host st ctx (a.deref (a.param 2)) (a.strAt (a.param 2))
          exact ⟨ctx2, by simpa [SetHookChainReturn, hc, htag] using hc2, hset⟩
        · simp [SetHookChainReturn, hc, htag, logError, TRUE, FALSE] at h

/-- Concrete host used by witness instantiations. -/
def hostW : Host :=
  ⟨fun _ => some ⟨[], [], true⟩, fun _ => some 7, fun i => i.toNat,
   fun i => i.toNat, fun i => i.toNat, fun p => p + 1,
   fun p => (p : Int), fun p => (p : Int) + 2⟩

/-- Concrete INTEGER-tagged return cell, unset. -/
def rvInt : RetVal := ⟨ATYPE_INTEGER, false, 0, none, 0, 0, 0⟩

/-- Concrete active context with an INTEGER return cell and two arguments
declared INTEGER and FLOAT. -/
def ctxW : HookCtx :=
  ⟨rvInt, 2, [ATYPE_INTEGER, ATYPE_FLOAT],
   [NativeWord.intw 11, NativeWord.intw 12], []⟩

/-- Concrete global state with `ctxW` active. -/
def stW : GlobalState := ⟨some ctxW, [], [], 0, []⟩

/-- Concrete global state with no active invocation. -/
def stNone : GlobalState := ⟨none, [], [], 0, []⟩

/-- Concrete AMX call input: given parameter cells, dereferencing triples
the cell and every string read yields a fixed two-letter text. -/
def argsW (ps : List Int) : AmxArgs :=
  ⟨ps, fun v => v * 3, fun _ => [Char.ofNat 97, Char.ofNat 98]⟩

theorem SetHookChainReturn_failure_no_mutation_witness :
    (SetHookChainReturn hostW stNone (argsW [0, 5])).ret = FALSE ∧
    (SetHookChainReturn hostW stNone (argsW [0, 5])).st.log.length =
      stNone.log.length + 1 ∧
    framedExceptLog (SetHookChainReturn hostW stNone (argsW [0, 5])).st stNone :=
  (SetHookChainReturn_failure_no_mutation hostW stNone (argsW [0, 5])).1 rfl

/-- C2: with an INTEGER- or FLOAT-tagged return cell and the matching tag
supplied, `SetHookChainReturn` succeeds, marks the cell set, and stores
the dereferenced raw cell word into the shared `_integer` member with no
conversion (identically for both tags); `GetHookChainReturn` then yields
exactly that word and performs no buffer write and no state change. -/
theorem SetHookChainReturn_int_float_roundtrip (host : Host)
    (st : GlobalState) (a1 a2 : AmxArgs) (ctx : HookCtx)
    (hctx : st.hookCtx = some ctx)
    (hty : ctx.retVal.type = ATYPE_INTEGER ∨ ctx.retVal.type = ATYPE_FLOAT)
    (htag : a1.param 1 = ctx.retVal.type.toCell) :
    (SetHookChainReturn host st a1).ret = TRUE ∧
    (SetHookChainReturn host st a1).st.hookCtx = some { ctx with retVal :=
      { ctx.retVal with set := true, _integer := a1.deref (a1.param 2) } } ∧
    (GetHookChainReturn host (SetHookChainReturn host st a1).st a2).ret =
      a1.deref (a1.param 2) ∧
    (GetHookChainReturn host (SetHookChainReturn host st a1).st a2).writes = [] ∧
    (GetHookChainReturn host (SetHookChainReturn host st a1).st a2).st =
      (SetHookChainReturn host st a1).st := by
  rcases hty with h | h <;>
    simp [SetHookChainReturn, GetHookChainReturn, setRetValSwitch, hctx, htag, h]

theorem SetHookChainReturn_int_float_roundtrip_witness :
    (GetHookChainReturn hostW
      (SetHookChainReturn hostW stW (argsW [0, 5])).st (argsW [])).ret = 15 :=
  ((SetHookChainReturn_int_float_roundtrip hostW stW (argsW [0, 5]) (argsW [])
    ctxW rfl (Or.inl rfl) rfl).2.2.1).trans (by decide)

/-- C5: `GetHookChainReturn` fails with a reported error when no
invocation is active and when the return cell is unset; for a
STRING-tagged cell it additionally fails (returning `FALSE` and writing
no payload) when the caller supplied fewer than the two parameters that
include the output-buffer length. -/
theorem GetHookChainReturn_failure_paths (host : Host) (st : GlobalState)
    (a : AmxArgs) :
    (st.hookCtx = none →
      (GetHookChainReturn host st a).ret = FALSE ∧
      (GetHookChainReturn host st a).st.log.length = st.log.length + 1 ∧
      framedExceptLog (GetHookChainReturn host st a).st st) ∧
    (∀ ctx, st.hookCtx = some ctx → ctx.retVal.set = false →
      (GetHookChainReturn host st a).ret = FALSE ∧
      (GetHookChainReturn host st a).st.log.length = st.log.length + 1 ∧
      framedExceptLog (GetHookChainReturn host st a).st st) ∧
    (∀ ctx, st.hookCtx = some ctx → ctx.retVal.set = true →
      ctx.retVal.type = ATYPE_STRING → a.paramsCount < 2 →
      (GetHookChainReturn host st a).ret = FALSE ∧
      (GetHookChainReturn host st a).writes = [] ∧
      framedExceptLog (GetHookChainReturn host st a).st st) := by
  refine ⟨?_, ?_, ?_⟩
  · intro h
    simp [GetHookChainReturn, h, logError, framedExceptLog]
  · intro ctx hc hset
    simp [GetHookChainReturn, hc, hset, logError, framedExceptLog]
  · intro ctx hc hset hty hlt
    have hne : a.paramsCount ≠ 2 := Nat.ne_of_lt hlt
    simp [GetHookChainReturn, hc, hset, hty, hne, framedExceptLog]

theorem GetHookChainReturn_failure_paths_witness :
    (GetHookChainReturn hostW stW (argsW [])).ret = FALSE ∧
    (GetHookChainReturn hostW stW (argsW [])).st.log.length =
      stW.log.length + 1 ∧
    framedExceptLog (GetHookChainReturn hostW stW (argsW [])).st stW :=
  (GetHookChainReturn_failure_paths hostW stW (argsW [])).2.1 ctxW rfl rfl

theorem SetHookChainArg_eq_none (host : Host) (st : GlobalState) (a : AmxArgs)
    (h : st.hookCtx = none) :
    SetHookChainArg host st a =
      { st := logError st "SetHookChainArg: trying to get return value without active hook",
        ret := FALSE, writes := [] } := by
  simp only [SetHookChainArg, h]

theorem SetHookChainArg_eq_oob (host : Host) (st : GlobalState) (a : AmxArgs)
    (ctx : HookCtx) (h : st.hookCtx = some ctx)
    (hg : ctx.args_count ≤ ((a.param 1 - 1) % (2 ^ 64 : Int)).toNat) :
    SetHookChainArg host st a =
      { st := logError st "SetHookChainArg: argument number out of range of hookchain args",
        ret := FALSE, writes := [] } := by
  simp only [SetHookChainArg, h]
  rw [if_pos hg]

theorem SetHookChainArg_eq_mismatch (host : Host) (st : GlobalState)
    (a : AmxArgs) (ctx : HookCtx) (h : st.hookCtx = some ctx)
    (hg : ¬ ctx.args_count ≤ ((a.param 1 - 1) % (2 ^ 64 : Int)).toNat)
    (ht : a.param 2 ≠ (ctx.args_type.getD ((a.param 1 - 1) % (2 ^ 64 : Int)).toNat
      ATYPE_INTEGER).toCell) :
    SetHookChainArg host st a =
      { st := logError st "SetHookChainArg: invalid argument type provided",
        ret := FALSE, writes := [] } := by
  simp only [SetHookChainArg, h]
  rw [if_neg hg, if_pos ht]

theorem SetHookChainArg_eq_success (host : Host) (st : GlobalState)
    (a : AmxArgs) (ctx : HookCtx) (h : st.hookCtx = some ctx)
    (hg : ¬ ctx.args_count ≤ ((a.param 1 - 1) % (2 ^ 64 : Int)).toNat)
    (ht : a.param 2 = (ctx.args_type.getD ((a.param 1 - 1) % (2 ^ 64 : Int)).toNat
      ATYPE_INTEGER).toCell) :
    SetHookChainArg host st a =
      { st := setArgSwitch host st ctx ((a.param 1 - 1) % (2 ^ 64 : Int)).toNat
          (ctx.args_type.getD ((a.param 1 - 1) % (2 ^ 64 : Int)).toNat ATYPE_INTEGER)
          (a.deref (a.param 3)) (a.strAt (a.param 3)),
        ret := TRUE, writes := [] } := by
  simp only [SetHookChainArg, h]
  rw [if_neg hg, if_neg (not_not_intro ht)]

/-- C1: `SetHookChainArg` fails with a reported error and no mutation of
the argument block (nor of any other state besides the log) when no
invocation is active, when the 0-based argument index `params[1] - 1`
falls outside `[0, args_count)` (the source converts the signed cell to
`size_t`, so every negative index also trips the unsigned range check),
or when the supplied type cell differs from the declared tag of the
slot. -/
theorem SetHookChainArg_failure_paths (host : Host) (st : GlobalState)
    (a : AmxArgs) :
    (st.hookCtx = none →
      (SetHookChainArg host st a).ret = FALSE ∧
      (SetHookChainArg host st a).st.log.length = st.log.length + 1 ∧
      framedExceptLog (SetHookChainArg host st a).st st) ∧
    (∀ ctx, st.hookCtx = some ctx →
      -(2 ^ 31) ≤ a.param 1 → a.param 1 < 2 ^ 31 → ctx.args_count < 2 ^ 31 →
      (a.param 1 - 1 < 0 ∨ (ctx.args_count : Int) ≤ a.param 1 - 1) →
      (SetHookChainArg host st a).ret = FALSE ∧
      (SetHookChainArg host st a).st.log.length = st.log.length + 1 ∧
      framedExceptLog (SetHookChainArg host st a).st st) ∧
    (∀ ctx, st.hookCtx = some ctx →
      0 ≤ a.param 1 - 1 → a.param 1 - 1 < (ctx.args_count : Int) →
      ctx.args_count < 2 ^ 31 →
      a.param 2 ≠ (ctx.args_type.getD (a.param 1 - 1).toNat ATYPE_INTEGER).toCell →
      (SetHookChainArg host st a).ret = FALSE ∧
      (SetHookChainArg host st a).st.log.length = st.log.length + 1 ∧
      framedExceptLog (SetHookChainArg host st a).st st) := by
  refine ⟨?_, ?_, ?_⟩
  · intro h
    rw [SetHookChainArg_eq_none host st a h]
    simp [logError, framedExceptLog]
  · intro ctx hc h1 h2 h3 hout
    have hg : ctx.args_count ≤ ((a.param 1 - 1) % (2 ^ 64 : Int)).toNat := by
      omega
    rw [SetHookChainArg_eq_oob host st a ctx hc hg]
    simp [logError, framedExceptLog, hc]
  · intro ctx hc h1 h2 h3 htag
    have hmod : (a.param 1 - 1) % (2 ^ 64 : Int) = a.param 1 - 1 := by omega
    have hg : ¬ ctx.args_count ≤ ((a.param 1 - 1) % (2 ^ 64 : Int)).toNat := by
      omega
    have ht : a.param 2 ≠ (ctx.args_type.getD
        ((a.param 1 - 1) % (2 ^ 64 : Int)).toNat ATYPE_INTEGER).toCell := by
      rw [hmod]; exact htag
    rw [SetHookChainArg_eq_mismatch host st a ctx hc hg ht]
    simp [logError, framedExceptLog, hc]

theorem SetHookChainArg_failure_paths_witness :
    (SetHookChainArg hostW stW (argsW [5, 0, 9])).ret = FALSE ∧
    (SetHookChainArg hostW stW (argsW [5, 0, 9])).st.log.length =
      stW.log.length + 1 ∧
    framedExceptLog (SetHookChainArg hostW stW (argsW [5, 0, 9])).st stW :=
  (SetHookChainArg_failure_paths hostW stW (argsW [5, 0, 9])).2.1 ctxW rfl
    (by decide) (by decide) (by decide) (Or.inr (by decide))

/-- One phase of handlers, run in order over the global state. -/
def runChain (fs : List (GlobalState → GlobalState)) (st : GlobalState) :
    GlobalState :=
  fs.foldl (fun s f => f s) st

/-- Modelled from the spec: the dispatch driver (not under src/) runs the
pre-phase handlers, then the original function observes the live argument
block, then the post-phase handlers run.  Returns the argument block the
original function observes together with the final state. -/
def dispatchObservedArgs (pres posts : List (GlobalState → GlobalState))
    (st : GlobalState) : Option (List NativeWord) × GlobalState :=
  ((runChain pres st).hookCtx.map HookCtx.args,
    runChain posts (runChain pres st))

/-- C6: for a valid index and matching tag `SetHookChainArg` returns
success and reports no error no matter where in the dispatch it runs (the
native consults no phase information); a call made during the post phase
never changes the argument block the original function observed, since
that observation happened before the post handlers ran, while a call made
during the pre phase replaces the slot the original function then
observes. -/
theorem SetHookChainArg_post_phase_noop (host : Host) (a : AmxArgs) :
    (∀ st ctx, st.hookCtx = some ctx →
      0 ≤ a.param 1 - 1 → a.param 1 - 1 < (ctx.args_count : Int) →
      ctx.args_count < 2 ^ 31 →
      a.param 2 = (ctx.args_type.getD (a.param 1 - 1).toNat ATYPE_INTEGER).toCell →
      (SetHookChainArg host st a).ret = TRUE ∧
      (SetHookChainArg host st a).st.log = st.log) ∧
    (∀ pres posts st,
      (dispatchObservedArgs pres
        (posts ++ [fun s => (SetHookChainArg host s a).st]) st).1 =
      (dispatchObservedArgs pres posts st).1) ∧
    (∀ posts st ctx, st.hookCtx = some ctx →
      0 ≤ a.param 1 - 1 → a.param 1 - 1 < (ctx.args_count : Int) →
      ctx.args_count < 2 ^ 31 →
      a.param 2 = (ctx.args_type.getD (a.param 1 - 1).toNat ATYPE_INTEGER).toCell →
      (dispatchObservedArgs [fun s => (SetHookChainArg host s a).st] posts st).1 =
        some (ctx.args.set (a.param 1 - 1).toNat
          (writtenWord host (ctx.args_type.getD (a.param 1 - 1).toNat ATYPE_INTEGER)
            ctx (a.deref (a.param 3)) (a.strAt (a.param 3))))) := by
  have key : ∀ st ctx, st.hookCtx = some ctx →
      0 ≤ a.param 1 - 1 → a.param 1 - 1 < (ctx.args_count : Int) →
      ctx.args_count < 2 ^ 31 →
      a.param 2 = (ctx.args_type.getD (a.param 1 - 1).toNat ATYPE_INTEGER).toCell →
      SetHookChainArg host st a =
        { st := setArgSwitch host st ctx (a.param 1 - 1).toNat
            (ctx.args_type.getD (a.param 1 - 1).toNat ATYPE_INTEGER)
            (a.deref (a.param 3)) (a.strAt (a.param 3)),
          ret := TRUE, writes := [] } := by
    intro st ctx hc h1 h2 h3 htag
    have hmod : (a.param 1 - 1) % (2 ^ 64 : Int) = a.param 1 - 1 := by omega
    have hg : ¬ ctx.args_count ≤ ((a.param 1 - 1) % (2 ^ 64 : Int)).toNat := by
      omega
    have ht : a.param 2 = (ctx.args_type.getD
        ((a.param 1 - 1) % (2 ^ 64 : Int)).toNat ATYPE_INTEGER).toCell := by
      rw [hmod]; exact htag
    rw [SetHookChainArg_eq_success host st a ctx hc hg ht, hmod]
  refine ⟨?_, ?_, ?_⟩
  · intro st ctx hc h1 h2 h3 htag
    rw [key st ctx hc h1 h2 h3 htag, setArgSwitch_shape]
    exact ⟨rfl, rfl⟩
  · intro pres posts st
    rfl
  · intro posts st ctx hc h1 h2 h3 htag
    simp only [dispatchObservedArgs, runChain, List.foldl_cons, List.foldl_nil]
    rw [key st ctx hc h1 h2 h3 htag]
    simp [setArgSwitch_shape]

theorem SetHookChainArg_post_phase_noop_witness :
    (SetHookChainArg hostW stW (argsW [1, 0, 9])).ret = TRUE ∧
    (SetHookChainArg hostW stW (argsW [1, 0, 9])).st.log = stW.log :=
  (SetHookChainArg_post_phase_noop hostW (argsW [1, 0, 9])).1 stW ctxW rfl
    (by decide) (by decide) (by decide) (by decide)

theorem RegisterHookChain_eq_nohook (host : Host) (st : GlobalState)
    (a : AmxArgs) (hh : host.getHook (a.param 1) = none) :
    RegisterHookChain host st a =
      { st := logError st "RegisterHookChain: function with this id does not exist in current API version",
        ret := INVALID_HOOKCHAIN, writes := [] } := by
  simp [RegisterHookChain, hh]

theorem RegisterHookChain_eq_unavailable (host : Host) (st : GlobalState)
    (a : AmxArgs) (hk : HookDesc) (hh : host.getHook (a.param 1) = some hk)
    (hav : hk.available = false) :
    RegisterHookChain host st a =
      { st := logError st "RegisterHookChain: function is not available, dependency required",
        ret := INVALID_HOOKCHAIN, writes := [] } := by
  simp [RegisterHookChain, hh, hav]

theorem RegisterHookChain_eq_nopublic (host : Host) (st : GlobalState)
    (a : AmxArgs) (hk : HookDesc) (hh : host.getHook (a.param 1) = some hk)
    (hav : hk.available = true)
    (hf : host.findPublic (a.strAt (a.param 2)) = none) :
    RegisterHookChain host st a =
      { st := logError st "RegisterHookChain: public function not found",
        ret := INVALID_HOOKCHAIN, writes := [] } := by
  simp [RegisterHookChain, hh, hav, hf]

theorem RegisterHookChain_eq_success (host : Host) (st : GlobalState)
    (a : AmxArgs) (hk : HookDesc) (fwid : Nat)
    (hh : host.getHook (a.param 1) = some hk) (hav : hk.available = true)
    (hf : host.findPublic (a.strAt (a.param 2)) = some fwid) :
    RegisterHookChain host st a =
      { st := { st with registrations := st.registrations ++
          [⟨a.param 1, fwid, decide (a.param 3 ≠ 0), FSTATE_ENABLED⟩] },
        ret := (st.registrations.length : Int) + 1, writes := [] } := by
  simp [RegisterHookChain, registerForward, hh, hav, hf, addHandler]

/-- C4: `RegisterHookChain` returns the reserved invalid sentinel, with
an error reported and no other state touched, precisely on the three
enumerated failure paths — unknown function id, availability predicate
false, callback not resolvable (the source's additional forward
registration step is modelled from the spec as callback resolution, so it
cannot introduce a further path); on success the registration is appended
and the returned handle is a fresh valid handle that resolves to it while
every previously valid handle still resolves as before. -/
theorem RegisterHookChain_failure_sentinel (host : Host) (st : GlobalState)
    (a : AmxArgs) :
    ((RegisterHookChain host st a).ret = INVALID_HOOKCHAIN ↔
      host.getHook (a.param 1) = none ∨
      (∃ hk, host.getHook (a.param 1) = some hk ∧ hk.available = false) ∨
      host.findPublic (a.strAt (a.param 2)) = none) ∧
    ((RegisterHookChain host st a).ret = INVALID_HOOKCHAIN →
      (RegisterHookChain host st a).st.log.length = st.log.length + 1 ∧
      framedExceptLog (RegisterHookChain host st a).st st) ∧
    (∀ hk fwid, host.getHook (a.param 1) = some hk → hk.available = true →
      host.findPublic (a.strAt (a.param 2)) = some fwid →
      (RegisterHookChain host st a).ret = (st.registrations.length : Int) + 1 ∧
      (RegisterHookChain host st a).st.registrations = st.registrations ++
        [⟨a.param 1, fwid, decide (a.param 3 ≠ 0), FSTATE_ENABLED⟩] ∧
      (RegisterHookChain host st a).st.log = st.log ∧
      (RegisterHookChain host st a).st.hookCtx = st.hookCtx ∧
      getAmxxHook (RegisterHookChain host st a).st
        (RegisterHookChain host st a).ret =
        some ⟨a.param 1, fwid, decide (a.param 3 ≠ 0), FSTATE_ENABLED⟩ ∧
      (∀ h : Int, 0 < h → h.toNat ≤ st.registrations.length →
        getAmxxHook (RegisterHookChain host st a).st h = getAmxxHook st h)) := by
  refine ⟨?_, ?_, ?_⟩
  · cases hh : host.getHook (a.param 1) with
    | none =>
        rw [RegisterHookChain_eq_nohook host st a hh]
        simp [INVALID_HOOKCHAIN]
    | some hk =>
        cases hav : hk.available with
        | false =>
            rw [RegisterHookChain_eq_unavailable host st a hk hh hav]
            simp [INVALID_HOOKCHAIN, hh, hav]
        | true =>
            cases hf : host.findPublic (a.strAt (a.param 2)) with
            | none =>
                rw [RegisterHookChain_eq_nopublic host st a hk hh hav hf]
                simp [INVALID_HOOKCHAIN, hh, hf]
            | some fwid =>
                rw [RegisterHookChain_eq_success host st a hk fwid hh hav hf]
                have hne : ((st.registrations.length : Int) + 1) ≠
                    INVALID_HOOKCHAIN := by
                  rw [INVALID_HOOKCHAIN]; omega
                constructor
                · intro hx
                  exact absurd hx hne
                · rintro (h | ⟨hk2, hk2e, hk2a⟩ | h)
                  · exact Option.noConfusion h
                  · cases Option.some.inj hk2e
                    rw [hav] at hk2a
                    exact Bool.noConfusion hk2a
                  · exact Option.noConfusion h
  · intro hfail
    cases hh : host.getHook (a.param 1) with
    | none =>
        rw [RegisterHookChain_eq_nohook host st a hh]
        simp [logError, framedExceptLog]
    | some hk =>
        cases hav : hk.available with
        | false =>
            rw [RegisterHookChain_eq_unavailable host st a hk hh hav]
            simp [logError, framedExceptLog]
        | true =>
            cases hf : host.findPublic (a.strAt (a.param 2)) with
            | none =>
                rw [RegisterHookChain_eq_nopublic host st a hk hh hav hf]
                simp [logError, framedExceptLog]
            | some fwid =>
                rw [RegisterHookChain_eq_success host st a hk fwid hh hav hf]
                  at hfail
                exfalso
                rw [INVALID_HOOKCHAIN] at hfail
                have : (st.registrations.length : Int) + 1 = 0 := hfail
                omega
  · intro hk fwid hh hav hf
    rw [RegisterHookChain_eq_success host st a hk fwid hh hav hf]
    refine ⟨rfl, rfl, rfl, rfl, ?_, ?_⟩
    · show getAmxxHook
        { st with registrations := st.registrations ++
          [⟨a.param 1, fwid, decide (a.param 3 ≠ 0), FSTATE_ENABLED⟩] }
        ((st.registrations.length : Int) + 1) =
        some ⟨a.param 1, fwid, decide (a.param 3 ≠ 0), FSTATE_ENABLED⟩
      unfold getAmxxHook
      rw [if_neg (by omega)]
      have htn : ((st.registrations.length : Int) + 1).toNat - 1 =
          st.registrations.length := by omega
      rw [htn]
      exact List.get?_concat_length _ _
    · intro h h0 hle
      show getAmxxHook
        { st with registrations := st.registrations ++
          [⟨a.param 1, fwid, decide (a.param 3 ≠ 0), FSTATE_ENABLED⟩] } h =
        getAmxxHook st h
      unfold getAmxxHook
      rw [if_neg (by omega), if_neg (by omega)]
      exact List.get?_append (by omega)

theorem RegisterHookChain_failure_sentinel_witness :
    (RegisterHookChain hostW stNone (argsW [3, 100, 1])).ret =
      (stNone.registrations.length : Int) + 1 :=
  ((RegisterHookChain_failure_sentinel hostW stNone (argsW [3, 100, 1])).2.2
    ⟨[], [], true⟩ 7 rfl rfl rfl).1

theorem EnableHookChain_eq_none (host : Host) (st : GlobalState) (a : AmxArgs)
    (h : getAmxxHook st (a.param 1) = none) :
    EnableHookChain host st a =
      { st := logError st "EnableHookChain: invalid HookChain handle",
        ret := FALSE, writes := [] } := by
  simp only [EnableHookChain, h]

theorem EnableHookChain_eq_some (host : Host) (st : GlobalState) (a : AmxArgs)
    (hk : AmxxHook) (h : getAmxxHook st (a.param 1) = some hk) :
    EnableHookChain host st a =
      { st := { st with registrations := st.registrations.set ((a.param 1).toNat - 1) ({ hk with state := FSTATE_ENABLED }) },
        ret := TRUE, writes := [] } := by
  simp only [EnableHookChain, h]

theorem DisableHookChain_eq_none (host : Host) (st : GlobalState) (a : AmxArgs)
    (h : getAmxxHook st (a.param 1) = none) :
    DisableHookChain host st a =
      { st := logError st "DisableHookChain: invalid HookChain handle",
        ret := FALSE, writes := [] } := by
  simp only [DisableHookChain, h]

theorem DisableHookChain_eq_some (host : Host) (st : GlobalState) (a : AmxArgs)
    (hk : AmxxHook) (h : getAmxxHook st (a.param 1) = some hk) :
    DisableHookChain host st a =
      { st := { st with registrations := st.registrations.set ((a.param 1).toNat - 1) ({ hk with state := FSTATE_STOPPED }) },
        ret := TRUE, writes := [] } := by
  simp only [DisableHookChain, h]

/-- C7: `EnableHookChain` and `DisableHookChain` report an error and
return false on an invalid handle without touching any registration; on a
valid handle they return true and update exactly that registration's state
to enabled respectively stopped, removing nothing and leaving every other
position of the chain — and the order and count of all registrations —
unchanged. -/
theorem EnableDisableHookChain_state (host : Host) (st : GlobalState)
    (a : AmxArgs) :
    (getAmxxHook st (a.param 1) = none →
      (EnableHookChain host st a).ret = FALSE ∧
      (EnableHookChain host st a).st.log.length = st.log.length + 1 ∧
      framedExceptLog (EnableHookChain host st a).st st ∧
      (DisableHookChain host st a).ret = FALSE ∧
      (DisableHookChain host st a).st.log.length = st.log.length + 1 ∧
      framedExceptLog (DisableHookChain host st a).st st) ∧
    (∀ hk, getAmxxHook st (a.param 1) = some hk →
      (EnableHookChain host st a).ret = TRUE ∧
      (EnableHookChain host st a).st.registrations =
        st.registrations.set ((a.param 1).toNat - 1)
          { hk with state := FSTATE_ENABLED } ∧
      (EnableHookChain host st a).st.registrations.length =
        st.registrations.length ∧
      (∀ j, j ≠ (a.param 1).toNat - 1 →
        (EnableHookChain host st a).st.registrations.get? j =
          st.registrations.get? j) ∧
      (EnableHookChain host st a).st.registrations.get?
        ((a.param 1).toNat - 1) = some { hk with state := FSTATE_ENABLED } ∧
      (EnableHookChain host st a).st.log = st.log ∧
      (DisableHookChain host st a).ret = TRUE ∧
      (DisableHookChain host st a).st.registrations =
        st.registrations.set ((a.param 1).toNat - 1)
          { hk with state := FSTATE_STOPPED } ∧
      (DisableHookChain host st a).st.registrations.get?
        ((a.param 1).toNat - 1) = some { hk with state := FSTATE_STOPPED } ∧
      (∀ j, j ≠ (a.param 1).toNat - 1 →
        (DisableHookChain host st a).st.registrations.get? j =
          st.registrations.get? j) ∧
      (DisableHookChain host st a).st.log = st.log) := by
  constructor
  · intro h
    rw [EnableHookChain_eq_none host st a h, DisableHookChain_eq_none host st a h]
    simp [logError, framedExceptLog]
  · intro hk h
    have hlt : (a.param 1).toNat - 1 < st.registrations.length := by
      rw [getAmxxHook] at h
      by_cases h0 : a.param 1 ≤ 0
      · rw [if_pos h0] at h
        exact absurd h (by simp)
      · rw [if_neg h0] at h
        exact (List.get?_eq_some.mp h).1
    rw [EnableHookChain_eq_some host st a hk h,
      DisableHookChain_eq_some host st a hk h]
    refine ⟨rfl, rfl, by simp, ?_, ?_, rfl, rfl, rfl, ?_, ?_, rfl⟩
    · intro j hj
      exact List.get?_set_ne _ _ (Ne.symm hj)
    · exact List.get?_set_eq_of_lt _ hlt
    · exact List.get?_set_eq_of_lt _ hlt
    · intro j hj
      exact List.get?_set_ne _ _ (Ne.symm hj)

theorem EnableDisableHookChain_state_witness :
    (DisableHookChain hostW
      ⟨none, [⟨3, 7, false, FSTATE_ENABLED⟩], [], 0, []⟩
      (argsW [1])).st.registrations = [⟨3, 7, false, FSTATE_STOPPED⟩] :=
  ((EnableDisableHookChain_state hostW
      ⟨none, [⟨3, 7, false, FSTATE_ENABLED⟩], [], 0, []⟩ (argsW [1])).2
    ⟨3, 7, false, FSTATE_ENABLED⟩ rfl).2.2.2.2.2.2.2.1

theorem SetHookChainReturn_eq_success (host : Host) (st : GlobalState)
    (a : AmxArgs) (ctx : HookCtx) (hc : st.hookCtx = some ctx)
    (ht : a.param 1 = ctx.retVal.type.toCell) :
    SetHookChainReturn host st a =
      { st := setRetValSwitch host st ctx (a.deref (a.param 2)) (a.strAt (a.param 2)),
        ret := TRUE, writes := [] } := by
  simp only [SetHookChainReturn, hc]
  rw [if_neg (not_not_intro ht)]

theorem setRetValSwitch_string (host : Host) (st : GlobalState) (ctx : HookCtx)
    (src : Int) (s : List Char) (hty : ctx.retVal.type = ATYPE_STRING) :
    setRetValSwitch host st ctx src s =
      { st with
          hookCtx := some ({ ctx with retVal := { ctx.retVal with _string := some (st.nextAlloc, s), set := true } }),
          heap := st.nextAlloc ::
            (match ctx.retVal._string with
              | some pr => st.heap.erase pr.1
              | none => st.heap),
          nextAlloc := st.nextAlloc + 1 } := by
  simp [setRetValSwitch, hty]

/-- C8: two successive successful STRING `SetHookChainReturn` calls in one
invocation each install a fresh owned copy of the supplied text; the
second call releases the first call's allocation before allocating, so
the first buffer is no longer live afterwards and the number of live
allocations does not grow. -/
theorem SetHookChainReturn_string_no_leak (host : Host) (st : GlobalState)
    (a1 a2 : AmxArgs) (ctx : HookCtx)
    (hctx : st.hookCtx = some ctx)
    (hty : ctx.retVal.type = ATYPE_STRING)
    (h1 : a1.param 1 = AType.toCell ATYPE_STRING)
    (h2 : a2.param 1 = AType.toCell ATYPE_STRING)
    (hwf : ∀ i ∈ st.heap, i < st.nextAlloc) :
    (SetHookChainReturn host st a1).ret = TRUE ∧
    (SetHookChainReturn host
      (SetHookChainReturn host st a1).st a2).ret = TRUE ∧
    (∃ ctx1, (SetHookChainReturn host st a1).st.hookCtx = some ctx1 ∧
      ctx1.retVal._string = some (st.nextAlloc, a1.strAt (a1.param 2))) ∧
    st.nextAlloc ∈ (SetHookChainReturn host st a1).st.heap ∧
    (∃ ctx2, (SetHookChainReturn host
        (SetHookChainReturn host st a1).st a2).st.hookCtx = some ctx2 ∧
      ctx2.retVal._string = some (st.nextAlloc + 1, a2.strAt (a2.param 2))) ∧
    st.nextAlloc + 1 ∈ (SetHookChainReturn host
      (SetHookChainReturn host st a1).st a2).st.heap ∧
    st.nextAlloc ∉ (SetHookChainReturn host
      (SetHookChainReturn host st a1).st a2).st.heap ∧
    (SetHookChainReturn host
        (SetHookChainReturn host st a1).st a2).st.heap.length =
      (SetHookChainReturn host st a1).st.heap.length := by
  have ht1 : a1.param 1 = ctx.retVal.type.toCell := by rw [hty]; exact h1
  rw [SetHookChainReturn_eq_success host st a1 ctx hctx ht1]
  rw [setRetValSwitch_string host st ctx _ _ hty]
  have ht2 : a2.param 1 =
      ({ ctx with retVal := { ctx.retVal with
        _string := some (st.nextAlloc, a1.strAt (a1.param 2)),
        set := true } } : HookCtx).retVal.type.toCell := by
    show a2.param 1 = ctx.retVal.type.toCell
    rw [hty]; exact h2
  rw [SetHookChainReturn_eq_success host _ a2 _ rfl ht2]
  have hty2 : ({ ctx with retVal := { ctx.retVal with
      _string := some (st.nextAlloc, a1.strAt (a1.param 2)),
      set := true } } : HookCtx).retVal.type = ATYPE_STRING := hty
  rw [setRetValSwitch_string host _ _ _ _ hty2]
  cases hstr : ctx.retVal._string with
  | none =>
      simp only [hstr, List.erase_cons_head]
      refine ⟨by trivial, by trivial, ⟨_, rfl, rfl⟩, List.mem_cons_self _ _,
        ⟨_, rfl, rfl⟩, List.mem_cons_self _ _, ?_, by trivial⟩
      intro hmem
      rcases List.mem_cons.mp hmem with heq | hmem2
      · omega
      · exact absurd (hwf _ hmem2) (by omega)
  | some pr =>
      simp only [hstr, List.erase_cons_head]
      refine ⟨by trivial, by trivial, ⟨_, rfl, rfl⟩, List.mem_cons_self _ _,
        ⟨_, rfl, rfl⟩, List.mem_cons_self _ _, ?_, by trivial⟩
      intro hmem
      rcases List.mem_cons.mp hmem with heq | hmem2
      · omega
      · exact absurd (hwf _ (List.mem_of_mem_erase hmem2)) (by omega)

/-- Concrete STRING-tagged state for the witness of the no-leak claim. -/
def stShookString : GlobalState :=
  ⟨some ⟨⟨ATYPE_STRING, false, 0, none, 0, 0, 0⟩, 0, [], [], []⟩, [], [], 0, []⟩

theorem SetHookChainReturn_string_no_leak_witness :
    (0 : Nat) ∉ (SetHookChainReturn hostW
      (SetHookChainReturn hostW stShookString (argsW [2, 5])).st
      (argsW [2, 6])).st.heap :=
  (SetHookChainReturn_string_no_leak hostW stShookString (argsW [2, 5])
    (argsW [2, 6]) ⟨⟨ATYPE_STRING, false, 0, none, 0, 0, 0⟩, 0, [], [], []⟩
    rfl rfl rfl rfl (by intro i hi; cases hi)).2.2.2.2.2.2.1

/-- C9: the success channel of `GetHookChainReturn` depends on the return
tag: for INTEGER and FLOAT the stored raw word itself is the native
return value, and for the three opaque-handle tags the resolved index is,
so a stored value of 0 is returned as the very cell `FALSE` that the
failure paths return; only for STRING is the payload copied into the
caller-supplied buffer (truncated at the supplied capacity) with `TRUE`
returned as a separate success indicator. -/
theorem GetHookChainReturn_channels (host : Host) (st : GlobalState)
    (a : AmxArgs) :
    (∀ ctx, st.hookCtx = some ctx → ctx.retVal.set = true →
      (ctx.retVal.type = ATYPE_INTEGER ∨ ctx.retVal.type = ATYPE_FLOAT) →
      (GetHookChainReturn host st a).ret = ctx.retVal._integer ∧
      (GetHookChainReturn host st a).writes = []) ∧
    (∀ ctx, st.hookCtx = some ctx → ctx.retVal.set = true →
      ctx.retVal.type = ATYPE_CLASSPTR →
      (GetHookChainReturn host st a).ret =
        host.indexOfPev (host.pevOfClass ctx.retVal._classptr) ∧
      (GetHookChainReturn host st a).writes = []) ∧
    (∀ ctx, st.hookCtx = some ctx → ctx.retVal.set = true →
      ctx.retVal.type = ATYPE_EDICT →
      (GetHookChainReturn host st a).ret = host.indexOfEdict ctx.retVal._edict ∧
      (GetHookChainReturn host st a).writes = []) ∧
    (∀ ctx, st.hookCtx = some ctx → ctx.retVal.set = true →
      ctx.retVal.type = ATYPE_EVARS →
      (GetHookChainReturn host st a).ret = host.indexOfPev ctx.retVal._pev ∧
      (GetHookChainReturn host st a).writes = []) ∧
    (∀ ctx, st.hookCtx = some ctx → ctx.retVal.set = true →
      ctx.retVal.type = ATYPE_INTEGER → ctx.retVal._integer = 0 →
      (GetHookChainReturn host st a).ret = FALSE) ∧
    (∀ ctx s, st.hookCtx = some ctx → ctx.retVal.set = true →
      ctx.retVal.type = ATYPE_STRING → a.paramsCount = 2 →
      ctx.retVal._string = some s →
      (GetHookChainReturn host st a).ret = TRUE ∧
      (GetHookChainReturn host st a).writes =
        [(a.param 1, s.2.take (a.param 2).toNat)]) := by
  refine ⟨?_, ?_, ?_, ?_, ?_, ?_⟩
  · intro ctx hc hset hty
    rcases hty with h | h <;> simp [GetHookChainReturn, hc, hset, h]
  · intro ctx hc hset h
    simp [GetHookChainReturn, hc, hset, h]
  · intro ctx hc hset h
    simp [GetHookChainReturn, hc, hset, h]
  · intro ctx hc hset h
    simp [GetHookChainReturn, hc, hset, h]
  · intro ctx hc hset h hz
    simp [GetHookChainReturn, hc, hset, h, hz, FALSE]
  · intro ctx s hc hset h hpc hs
    simp [GetHookChainReturn, hc, hset, h, hpc, hs]

theorem GetHookChainReturn_channels_witness :
    (GetHookChainReturn hostW
      ⟨some ⟨⟨ATYPE_INTEGER, true, 0, none, 0, 0, 0⟩, 0, [], [], []⟩,
        [], [], 0, []⟩ (argsW [])).ret = FALSE :=
  (GetHookChainReturn_channels hostW
      ⟨some ⟨⟨ATYPE_INTEGER, true, 0, none, 0, 0, 0⟩, 0, [], [], []⟩,
        [], [], 0, []⟩ (argsW [])).2.2.2.2.1
    ⟨⟨ATYPE_INTEGER, true, 0, none, 0, 0, 0⟩, 0, [], [], []⟩ rfl rfl rfl rfl

/-- C10: when neither ReHLDS nor ReGameDLL is available at registration
time, the registered table keeps the six native names but every
implementation is the one shared stub, which reports an error and returns
false while leaving all state except the log untouched — so no real
hookchain operation is reachable in that configuration. -/
theorem RegisterNatives_stub_when_missing (cfg : ApiCfg)
    (h1 : cfg.hasReHLDS = false) (h2 : cfg.hasReGameDLL = false) :
    (RegisterNatives_HookChains cfg).map Prod.fst =
      HookChain_Natives.map Prod.fst ∧
    ∀ p ∈ RegisterNatives_HookChains cfg, ∀ host stX aX,
      (p.2 host stX aX).ret = FALSE ∧
      (p.2 host stX aX).st.log.length = stX.log.length + 1 ∧
      framedExceptLog (p.2 host stX aX).st stX := by
  constructor
  · simp [RegisterNatives_HookChains, h1, h2, fillNatives]
  · intro p hp host stX aX
    have hp2 : p.2 = hookChainStub := by
      simp only [RegisterNatives_HookChains, h1, h2, fillNatives,
        HookChain_Natives] at hp
      simp only [Bool.false_eq_true, not_false_eq_true, and_self, if_true,
        List.map_cons, List.map_nil, List.mem_cons, List.not_mem_nil,
        or_false] at hp
      rcases hp with h | h | h | h | h | h <;> rw [h]
    rw [hp2]
    simp [hookChainStub, logError, framedExceptLog]

theorem RegisterNatives_stub_when_missing_witness :
    ((("RegisterHookChain", hookChainStub) : String × Native).2 hostW stW
      (argsW [])).ret = FALSE ∧
    ((("RegisterHookChain", hookChainStub) : String × Native).2 hostW stW
      (argsW [])).st.log.length = stW.log.length + 1 ∧
    framedExceptLog ((("RegisterHookChain", hookChainStub) : String × Native).2
      hostW stW (argsW [])).st stW :=
  (RegisterNatives_stub_when_missing ⟨false, false⟩ rfl rfl).2
    ("RegisterHookChain", hookChainStub)
    (by simp [RegisterNatives_HookChains, fillNatives, HookChain_Natives])
    hostW stW (argsW [])
